import Mathlib

/-!
Verification of `BuyTicketModal.tsx` (NFT-ticketing frontend).

The component is embedded shallowly: component-local React state becomes the
structure `ModalState`; the wallet session becomes `Wallet`; each asynchronous
operation (`fetchTicketPrice` effect body, `handleBuyTicket` click handler)
becomes a pure function from the pre-state, the wallet, and the outcomes of the
awaited external calls to a post-state plus an `Effects` record of the
observable side effects (snackbar notifications, booking calls, modal close,
dispatched refresh events).  JavaScript numbers are modelled as exact rationals
plus an explicit NaN/Infinity layer (`JSNum`) where `Number(string)` conversion
matters; where a property depends on binary64 rounding (the price roundtrip),
an exact 53-bit round-to-nearest-even model (`fp53ofRat` and friends) is used;
thrown JavaScript values are modelled by `Thrown`.
-/

namespace BuyTicketModal

/-- Severity of a notistack snackbar, from the `variant` option used at each
`enqueueSnackbar` call site. -/
inductive Variant where
  | success
  | warning
  | error
deriving DecidableEq, Repr

/-- A JavaScript value thrown by an awaited call: either an `Error` instance
carrying a message, or some non-`Error` value. -/
inductive Thrown where
  | error (msg : String)
  | other
deriving DecidableEq, Repr

/-- `e instanceof Error ? e.message : d` -/
def Thrown.messageOr (d : String) : Thrown → String
  | .error m => m
  | .other => d

/-- A JavaScript number as far as this component observes it: NaN, a signed
infinity, or an exact rational.  Facts that are sensitive to binary64
rounding are settled against the explicit `fp53ofRat` model below. -/
inductive JSNum where
  | nan
  | inf (neg : Bool)
  | num (q : ℚ)
deriving DecidableEq, Repr

/-- Value of a nonempty list of decimal digit characters. -/
def digitsVal (cs : List Char) : ℕ :=
  cs.foldl (fun a c => a * 10 + (c.toNat - 48)) 0

/-- `some` of the value of a nonempty all-digit list in the given base
(digits `0-9a-fA-F` as appropriate), else `none`. -/
def natOfBase? (base : ℕ) (cs : List Char) : Option ℕ :=
  let val? : Char → Option ℕ := fun c =>
    if c.isDigit then some (c.toNat - 48)
    else if 97 ≤ c.toNat ∧ c.toNat ≤ 102 then some (c.toNat - 97 + 10)
    else if 65 ≤ c.toNat ∧ c.toNat ≤ 70 then some (c.toNat - 65 + 10)
    else Option.none
  if cs.isEmpty then none
  else cs.foldl
    (fun acc c =>
      match acc, val? c with
      | some a, some d => if d < base then some (a * base + d) else none
      | _, _ => none)
    (some 0)

/-- The mantissa of a decimal numeric literal: `digits`, `digits.digits`,
`digits.`, or `.digits`. -/
def parseDecMantissa (cs : List Char) : Option ℚ :=
  let ip := cs.takeWhile Char.isDigit
  let rest := cs.dropWhile Char.isDigit
  match rest with
  | [] => if ip.isEmpty then none else some (digitsVal ip)
  | '.' :: fp =>
      if fp.all Char.isDigit ∧ ¬(ip.isEmpty ∧ fp.isEmpty) then
        some ((digitsVal ip : ℚ) + (digitsVal fp : ℚ) / 10 ^ fp.length)
      else none
  | _ => none

/-- The exponent part after `e`/`E`: an optional sign then nonempty digits. -/
def parseExponent (cs : List Char) : Option ℤ :=
  match cs with
  | '+' :: r => if r.isEmpty ∨ ¬r.all Char.isDigit then none else some (digitsVal r)
  | '-' :: r => if r.isEmpty ∨ ¬r.all Char.isDigit then none else some (-(digitsVal r : ℤ))
  | r => if r.isEmpty ∨ ¬r.all Char.isDigit then none else some (digitsVal r)

/-- An unsigned decimal literal with optional exponent. -/
def parseDecLiteral (cs : List Char) : Option ℚ :=
  let mant := cs.takeWhile (fun c => !(c == 'e' || c == 'E'))
  let rest := cs.dropWhile (fun c => !(c == 'e' || c == 'E'))
  match parseDecMantissa mant with
  | none => none
  | some m =>
    match rest with
    | [] => some m
    | _ :: es =>
      match parseExponent es with
      | none => none
      | some e => some (m * (10 : ℚ) ^ e)

/-- ECMAScript `Number(string)` conversion as this component can observe it:
surrounding whitespace is trimmed, the empty string is `0`, signed `Infinity`
and signless `0x`/`0o`/`0b` radix literals are recognised, signed decimal
literals (with optional fraction and exponent) take their exact value, and
everything else is NaN.  (Exact rationals stand in for the converted values;
the properties stated about this conversion depend only on the
NaN-versus-number classification, not on rounding.) -/
def jsWhitespace (c : Char) : Bool :=
  c == ' ' || c == '\t' || c == '\n' || c == '\r' ||
  c.toNat == 11 || c.toNat == 12 || c.toNat == 160

def jsStrToNumber (s : String) : JSNum :=
  let cs := ((s.toList.dropWhile jsWhitespace).reverse.dropWhile jsWhitespace).reverse
  match cs with
  | [] => .num 0
  | '0' :: x :: r =>
    if x == 'x' || x == 'X' then
      match natOfBase? 16 r with | some n => .num n | none => .nan
    else if x == 'o' || x == 'O' then
      match natOfBase? 8 r with | some n => .num n | none => .nan
    else if x == 'b' || x == 'B' then
      match natOfBase? 2 r with | some n => .num n | none => .nan
    else
      match parseDecLiteral cs with | some q => .num q | none => .nan
  | _ =>
    let signedBody (neg : Bool) (body : List Char) : JSNum :=
      if body = "Infinity".toList then .inf neg
      else
        match parseDecLiteral body with
        | some q => .num (if neg then -q else q)
        | none => .nan
    match cs with
    | '+' :: r => signedBody false r
    | '-' :: r => signedBody true r
    | r => signedBody false r

/-- The wallet session from `useWallet()`: `activeAddress` is a nullable
string, `transactionSigner` a nullable signing function (only its presence is
observable to the guards in this file). -/
structure Wallet where
  activeAddress : Option String
  signerPresent : Bool
deriving DecidableEq, Repr

/-- JavaScript truthiness of a nullable string: `null`/`undefined` and `""`
are falsy. -/
def jsTruthyStr : Option String → Bool
  | none => false
  | some a => !(a == "")

/-- The guard `!activeAddress || !transactionSigner` shared by the `appFactory`
memo (line 36) and the first precondition of `handleBuyTicket` (line 67).
A present `transactionSigner` is a function and hence always truthy. -/
def walletFalsy (w : Wallet) : Bool :=
  !jsTruthyStr w.activeAddress || !w.signerPresent

/-- `new NftBookingsFactory(algodClient, activeAddress, transactionSigner,
CONFIG.IS_DEVELOPMENT)` — the constructed factory is external code; the
embedding records the address it was built from. -/
structure NftBookingsFactory where
  activeAddress : String
deriving DecidableEq, Repr

/-- The `appFactory` memo (lines 35-38): `null` when the wallet guard fails,
otherwise a freshly constructed factory. -/
def appFactory (w : Wallet) : Option NftBookingsFactory :=
  if walletFalsy w then none
  else some ⟨w.activeAddress.getD ""⟩

/-- `getAppClient` (lines 40-43): throws when `appFactory` is `null`,
otherwise returns `appFactory.getClient(CONFIG.APP_ID)`.  The client object is
external code; the embedding represents it by the factory it came from. -/
def getAppClient (w : Wallet) : Except Thrown NftBookingsFactory :=
  match appFactory w with
  | none => .error (.error "Wallet not connected or factory not initialized")
  | some f => .ok f

/-- The component-local React state (lines 16-20). -/
structure ModalState where
  eventId : String
  receiverAddress : String
  loading : Bool
  ticketPrice : Option ℚ
deriving DecidableEq, Repr

/-- The receiver address the component initialises with (line 17) and resets
to after a successful booking (line 103). -/
def DEFAULT_RECEIVER_ADDRESS : String :=
  "2ZTFJNDXPWDETGJQQN33HAATRHXZMBWESKO2AUFZUHERH2H3TG4XTNPL4Y"

/-- Observable side effects of one run of an asynchronous operation:
notifications enqueued (in order), calls to `appClient.bookTicket` with their
arguments, calls to `closeModal`, dispatched `refreshTickets` window events,
awaited `getTicketPrice` reads, and awaited `getTransactionParams` reads. -/
structure Effects where
  snackbars : List (String × Variant)
  bookCalls : List (JSNum × String × String × ℚ)
  closeModalCalls : Nat
  refreshEvents : Nat
  priceFetches : Nat
  paramsFetches : Nat
deriving DecidableEq, Repr

/-- No side effects. -/
def Effects.none : Effects := ⟨[], [], 0, 0, 0, 0⟩

/-- A single snackbar and nothing else. -/
def Effects.snack (m : String) (v : Variant) : Effects := ⟨[(m, v)], [], 0, 0, 0, 0⟩

/-- Field-wise accumulation of the effects of two consecutive phases. -/
def Effects.append (a b : Effects) : Effects :=
  ⟨a.snackbars ++ b.snackbars, a.bookCalls ++ b.bookCalls,
   a.closeModalCalls + b.closeModalCalls, a.refreshEvents + b.refreshEvents,
   a.priceFetches + b.priceFetches, a.paramsFetches + b.paramsFetches⟩

/-- One run of the `fetchTicketPrice` effect body (lines 46-64).
`fetchResult` is the outcome of the awaited `appClient.getTicketPrice()` call
(a micro-unit amount on success); it is only consulted when the run reaches
that await. -/
def fetchTicketPrice (w : Wallet) (fetchResult : Except Thrown ℚ)
    (s : ModalState) : ModalState × Effects :=
  if s.eventId == "" || !jsTruthyStr w.activeAddress || !w.signerPresent then
    ({ s with ticketPrice := none }, Effects.none)
  else
    match getAppClient w with
    | .error e =>
        ({ s with ticketPrice := none },
         Effects.snack (e.messageOr "Unable to fetch ticket price") .error)
    | .ok _ =>
        match fetchResult with
        | .ok priceMicro =>
            ({ s with ticketPrice := some (priceMicro / 1000000) },
             { Effects.none with priceFetches := 1 })
        | .error e =>
            ({ s with ticketPrice := none },
             { Effects.snack (e.messageOr "Unable to fetch ticket price") .error with
                priceFetches := 1 })

/-- The guard `!ticketPrice || ticketPrice <= 0` (line 79): `null` and `0` are
falsy, and the second disjunct catches non-positive numbers. -/
def ticketPriceGuardFails : Option ℚ → Bool
  | none => true
  | some p => p == 0 || decide (p ≤ 0)

/-- The synchronous prefix of `handleBuyTicket` (lines 66-86): the four
precondition checks in source order, each returning early with its snackbar;
when all pass, `setLoading(true)` runs and the `Bool` result records that the
submission proceeds into the `try` block. -/
def handleBuyTicketStart (w : Wallet) (s : ModalState) :
    ModalState × Effects × Bool :=
  if walletFalsy w then
    (s, Effects.snack "Please connect your wallet first" .warning, false)
  else if s.eventId == "" then
    (s, Effects.snack "Please enter an Event ID" .error, false)
  else if s.receiverAddress == "" then
    (s, Effects.snack "Please enter a receiver address" .error, false)
  else if ticketPriceGuardFails s.ticketPrice then
    (s, Effects.snack "Ticket price not available" .error, false)
  else
    ({ s with loading := true }, Effects.none, true)

/-- Outcomes of the awaited external calls inside the `try` block:
`params` for `algodClient.getTransactionParams().do()` (line 91, the
suggested-params value itself is opaque to every claim and is represented by
its identity as a natural number), `bookResult` for
`appClient.bookTicket(...)` (line 99, the response is observed only through
string interpolation into the success message). -/
structure BuyEnv where
  params : Except Thrown Nat
  bookResult : Except Thrown String
deriving Repr

/-- `Error booking ticket: ...` snackbar of the `catch` block (lines 108-111). -/
def bookErrorEffects (e : Thrown) : Effects :=
  Effects.snack ("Error booking ticket: " ++ e.messageOr "Unknown error") .error

/-- The `try`/`catch`/`finally` body of `handleBuyTicket` (lines 87-114), run
from the state left by `handleBuyTicketStart`.  `getAppClient` may throw
synchronously (caught by the same `catch`); then the suggested params are
awaited; then the payment transaction is built (sender = `activeAddress`,
receiver = `receiverAddress`, amount = `ticketPrice * 1_000_000`) and
`bookTicket(Number(eventId), paymentTxn)` is awaited.  On success the snackbar,
`closeModal`, the three state resets, and the `refreshTickets` dispatch run in
source order; `finally` resets `loading` on every path. -/
def handleBuyTicketAwait (w : Wallet) (env : BuyEnv) (s : ModalState) :
    ModalState × Effects :=
  match getAppClient w with
  | .error e => ({ s with loading := false }, bookErrorEffects e)
  | .ok _ =>
    match env.params with
    | .error e =>
        ({ s with loading := false },
         { bookErrorEffects e with paramsFetches := 1 })
    | .ok _ =>
      let amount : ℚ := (s.ticketPrice.getD 0) * 1000000
      let call : JSNum × String × String × ℚ :=
        (jsStrToNumber s.eventId, w.activeAddress.getD "", s.receiverAddress, amount)
      match env.bookResult with
      | .error e =>
          ({ s with loading := false },
           { bookErrorEffects e with bookCalls := [call], paramsFetches := 1 })
      | .ok response =>
          ({ eventId := "", receiverAddress := DEFAULT_RECEIVER_ADDRESS,
             loading := false, ticketPrice := none },
           { snackbars :=
               [("Ticket booked successfully! Ticket ID: " ++ response, .success)],
             bookCalls := [call], closeModalCalls := 1, refreshEvents := 1,
             priceFetches := 0, paramsFetches := 1 })

/-- One full run of `handleBuyTicket` (lines 66-115). -/
def handleBuyTicket (w : Wallet) (env : BuyEnv) (s : ModalState) :
    ModalState × Effects :=
  let r := handleBuyTicketStart w s
  if r.2.2 then
    let a := handleBuyTicketAwait w env r.1
    (a.1, (r.2.1).append a.2)
  else
    (r.1, r.2.1)

/-- The `disabled` binding of the submit button (line 158):
`loading || !ticketPrice`, where a `null` or zero price is falsy. -/
def submitDisabled (s : ModalState) : Bool :=
  s.loading || (match s.ticketPrice with
                | none => true
                | some p => p == 0)

end BuyTicketModal

namespace BuyTicketModal

/-! ## Helper lemmas (shared) -/

lemma walletFalsy_eq_false_iff (w : Wallet) :
    walletFalsy w = false ↔ jsTruthyStr w.activeAddress = true ∧ w.signerPresent = true := by
  simp [walletFalsy]

lemma ticketPriceGuardFails_some_eq_false_iff (p : ℚ) :
    ticketPriceGuardFails (some p) = false ↔ 0 < p := by
  simp only [ticketPriceGuardFails, Bool.or_eq_false_iff, beq_eq_false_iff_ne, ne_eq,
    decide_eq_false_iff_not, not_le]
  constructor
  · rintro ⟨_, hp⟩
    exact hp
  · intro hp
    exact ⟨ne_of_gt hp, hp⟩

lemma jsTruthyStr_exists (o : Option String) (h : jsTruthyStr o = true) :
    ∃ a, o = some a ∧ a ≠ "" := by
  cases o with
  | none => simp [jsTruthyStr] at h
  | some a =>
    refine ⟨a, rfl, ?_⟩
    simpa [jsTruthyStr] using h

end BuyTicketModal

namespace BuyTicketModal

/-! ## Claim theorems -/

/-- Claim C1: `handleBuyTicket` checks its four preconditions in source order
(wallet connected, event identifier present, receiver address present, price
available and positive); the first failing precondition returns immediately
with its own distinct warning/error snackbar, the booking call is never
invoked, and the component state is left unchanged. -/
theorem handleBuyTicket_precondition_short_circuit
    (w : Wallet) (env : BuyEnv) (s : ModalState) :
    (walletFalsy w = true →
      handleBuyTicket w env s =
        (s, Effects.snack "Please connect your wallet first" .warning)) ∧
    (walletFalsy w = false → s.eventId = "" →
      handleBuyTicket w env s =
        (s, Effects.snack "Please enter an Event ID" .error)) ∧
    (walletFalsy w = false → s.eventId ≠ "" → s.receiverAddress = "" →
      handleBuyTicket w env s =
        (s, Effects.snack "Please enter a receiver address" .error)) ∧
    (walletFalsy w = false → s.eventId ≠ "" → s.receiverAddress ≠ "" →
      ticketPriceGuardFails s.ticketPrice = true →
      handleBuyTicket w env s =
        (s, Effects.snack "Ticket price not available" .error)) ∧
    ([("Please connect your wallet first" : String), "Please enter an Event ID",
      "Please enter a receiver address", "Ticket price not available"].Pairwise (· ≠ ·)) := by
  refine ⟨?_, ?_, ?_, ?_, by decide⟩
  · intro hw
    simp [handleBuyTicket, handleBuyTicketStart, hw]
  · intro hw he
    simp [handleBuyTicket, handleBuyTicketStart, hw, he]
  · intro hw he hr
    simp [handleBuyTicket, handleBuyTicketStart, hw, he, hr]
  · intro hw he hr hp
    simp [handleBuyTicket, handleBuyTicketStart, hw, he, hr, hp]

/-- Witness for C1: a concrete submission with no wallet connected returns the
connect-wallet warning and changes nothing. -/
theorem handleBuyTicket_precondition_short_circuit_witness :
    walletFalsy ⟨none, true⟩ = true ∧
    handleBuyTicket ⟨none, true⟩ ⟨.ok 0, .ok "7"⟩ ⟨"42", "RCV", false, some 3⟩ =
      (⟨"42", "RCV", false, some 3⟩,
       Effects.snack "Please connect your wallet first" .warning) :=
  ⟨rfl,
   (handleBuyTicket_precondition_short_circuit ⟨none, true⟩ ⟨.ok 0, .ok "7"⟩
      ⟨"42", "RCV", false, some 3⟩).1 rfl⟩

end BuyTicketModal

namespace BuyTicketModal

/-- Claim C2: when every precondition passes and the awaited booking call
succeeds, `handleBuyTicket` resets `eventId` to `""`, resets
`receiverAddress` to the documented default, resets `ticketPrice` to `null`,
calls `closeModal` once, and dispatches exactly one `refreshTickets` event. -/
theorem handleBuyTicket_success_resets_closes_refreshes
    (w : Wallet) (env : BuyEnv) (s : ModalState) (sp : Nat) (r : String)
    (hw : walletFalsy w = false) (he : s.eventId ≠ "") (hr : s.receiverAddress ≠ "")
    (hp : ticketPriceGuardFails s.ticketPrice = false)
    (hparams : env.params = .ok sp) (hbook : env.bookResult = .ok r) :
    handleBuyTicket w env s =
      ({ eventId := "", receiverAddress := DEFAULT_RECEIVER_ADDRESS,
         loading := false, ticketPrice := none },
       { snackbars := [("Ticket booked successfully! Ticket ID: " ++ r, .success)],
         bookCalls := [(jsStrToNumber s.eventId, w.activeAddress.getD "",
                        s.receiverAddress, (s.ticketPrice.getD 0) * 1000000)],
         closeModalCalls := 1, refreshEvents := 1, priceFetches := 0,
         paramsFetches := 1 }) := by
  simp [handleBuyTicket, handleBuyTicketStart, handleBuyTicketAwait, getAppClient,
        appFactory, Effects.append, Effects.none, hw, he, hr, hp, hparams, hbook]

/-- Witness for C2: a concrete fully-valid submission whose booking call
returns `"7"`. -/
theorem handleBuyTicket_success_resets_closes_refreshes_witness :
    walletFalsy ⟨some "ADDR", true⟩ = false ∧
    handleBuyTicket ⟨some "ADDR", true⟩ ⟨.ok 0, .ok "7"⟩ ⟨"42", "RCV", false, some 3⟩ =
      ({ eventId := "", receiverAddress := DEFAULT_RECEIVER_ADDRESS,
         loading := false, ticketPrice := none },
       { snackbars := [("Ticket booked successfully! Ticket ID: 7", .success)],
         bookCalls := [(jsStrToNumber "42", "ADDR", "RCV", (some (3 : ℚ)).getD 0 * 1000000)],
         closeModalCalls := 1, refreshEvents := 1, priceFetches := 0,
         paramsFetches := 1 }) :=
  ⟨rfl,
   handleBuyTicket_success_resets_closes_refreshes ⟨some "ADDR", true⟩
     ⟨.ok 0, .ok "7"⟩ ⟨"42", "RCV", false, some 3⟩ 0 "7" rfl (by decide) (by decide)
     (by rw [ticketPriceGuardFails_some_eq_false_iff]; norm_num) rfl rfl⟩

/-- Claim C3: when every precondition passes but the awaited booking call
throws an `Error` with message `m`, `handleBuyTicket` leaves `eventId`,
`receiverAddress` and `ticketPrice` unchanged, does not call `closeModal`,
dispatches no refresh event, and enqueues exactly one error snackbar whose
text contains `m`. -/
theorem handleBuyTicket_failure_preserves_state
    (w : Wallet) (env : BuyEnv) (s : ModalState) (sp : Nat) (m : String)
    (hw : walletFalsy w = false) (he : s.eventId ≠ "") (hr : s.receiverAddress ≠ "")
    (hp : ticketPriceGuardFails s.ticketPrice = false)
    (hparams : env.params = .ok sp) (hbook : env.bookResult = .error (.error m)) :
    handleBuyTicket w env s =
      ({ s with loading := false },
       { snackbars := [("Error booking ticket: " ++ m, .error)],
         bookCalls := [(jsStrToNumber s.eventId, w.activeAddress.getD "",
                        s.receiverAddress, (s.ticketPrice.getD 0) * 1000000)],
         closeModalCalls := 0, refreshEvents := 0, priceFetches := 0,
         paramsFetches := 1 }) ∧
    ∃ pre post, "Error booking ticket: " ++ m = pre ++ m ++ post := by
  constructor
  · simp [handleBuyTicket, handleBuyTicketStart, handleBuyTicketAwait, getAppClient,
          appFactory, Effects.append, Effects.none, bookErrorEffects, Effects.snack,
          Thrown.messageOr, hw, he, hr, hp, hparams, hbook]
  · exact ⟨"Error booking ticket: ", "", by simp⟩

/-- Witness for C3: a concrete submission whose booking call throws
`Error("boom")`. -/
theorem handleBuyTicket_failure_preserves_state_witness :
    walletFalsy ⟨some "ADDR", true⟩ = false ∧
    (handleBuyTicket ⟨some "ADDR", true⟩ ⟨.ok 0, .error (.error "boom")⟩
        ⟨"42", "RCV", false, some 3⟩ =
      ({ eventId := "42", receiverAddress := "RCV", loading := false,
         ticketPrice := some 3 },
       { snackbars := [("Error booking ticket: boom", .error)],
         bookCalls := [(jsStrToNumber "42", "ADDR", "RCV", (some (3 : ℚ)).getD 0 * 1000000)],
         closeModalCalls := 0, refreshEvents := 0, priceFetches := 0,
         paramsFetches := 1 }) ∧
     ∃ pre post, "Error booking ticket: boom" = pre ++ "boom" ++ post) :=
  ⟨rfl,
   handleBuyTicket_failure_preserves_state ⟨some "ADDR", true⟩
     ⟨.ok 0, .error (.error "boom")⟩ ⟨"42", "RCV", false, some 3⟩ 0 "boom" rfl
     (by decide) (by decide)
     (by rw [ticketPriceGuardFails_some_eq_false_iff]; norm_num) rfl rfl⟩

end BuyTicketModal

namespace BuyTicketModal

/-- Claim C4: a price-fetch run whose preconditions hold and whose awaited
`getTicketPrice()` call returns the micro-unit value `p` sets `ticketPrice`
to `p / 1_000_000`. -/
theorem fetchTicketPrice_success_divides
    (w : Wallet) (s : ModalState) (p : ℚ)
    (hw : walletFalsy w = false) (he : s.eventId ≠ "") :
    fetchTicketPrice w (.ok p) s =
      ({ s with ticketPrice := some (p / 1000000) },
       { Effects.none with priceFetches := 1 }) := by
  obtain ⟨ha, hs⟩ := (walletFalsy_eq_false_iff w).mp hw
  simp [fetchTicketPrice, getAppClient, appFactory, hw, he, ha, hs]

/-- Witness for C4: fetching the price for identifier `"42"` with a connected
wallet and micro value `5`. -/
theorem fetchTicketPrice_success_divides_witness :
    walletFalsy ⟨some "ADDR", true⟩ = false ∧
    fetchTicketPrice ⟨some "ADDR", true⟩ (.ok 5) ⟨"42", "RCV", false, none⟩ =
      ({ eventId := "42", receiverAddress := "RCV", loading := false,
         ticketPrice := some ((5 : ℚ) / 1000000) },
       { Effects.none with priceFetches := 1 }) :=
  ⟨rfl,
   fetchTicketPrice_success_divides ⟨some "ADDR", true⟩ ⟨"42", "RCV", false, none⟩ 5
     rfl (by decide)⟩

/-- Fuel-driven bit length of a natural number (`0` has length `0`). -/
def bitlen : ℕ → ℕ → ℕ
  | 0, _ => 0
  | f + 1, n => if n = 0 then 0 else bitlen f (n / 2) + 1

/-- The source's numbers are IEEE-754 binary64 values.  For the
rounding-sensitive price roundtrip, positive doubles are modelled exactly as
dyadic rationals `m * 2 ^ e` with normalized 53-bit significand
`2 ^ 52 ≤ m < 2 ^ 53` (overflow and subnormals lie far outside the values
involved).  `fp53ofRat num den` is the round-to-nearest, ties-to-even double
of the positive rational `num / den`. -/
def fp53ofRat (num den : ℕ) : ℕ × ℤ :=
  if num = 0 ∨ den = 0 then (0, 0) else
  let bn : ℤ := bitlen 256 num
  let bd : ℤ := bitlen 256 den
  let t : ℤ := bn - bd
  let e : ℤ := if den * 2 ^ t.toNat ≤ num * 2 ^ (-t).toNat then t else t - 1
  let s : ℤ := 52 - e
  let N := num * 2 ^ s.toNat
  let D := den * 2 ^ (-s).toNat
  let m0 := N / D
  let r := N % D
  let m1 := if D < 2 * r then m0 + 1
            else if 2 * r < D then m0
            else if m0 % 2 = 0 then m0 else m0 + 1
  if m1 = 2 ^ 53 then (2 ^ 52, e - 51) else (m1, e - 52)

/-- The double of a natural number (exact for `n < 2 ^ 53`). -/
def fp53ofNat (n : ℕ) : ℕ × ℤ := fp53ofRat n 1

/-- Correctly rounded binary64 product: the exact product, rounded once
(scaling by a power of two is exact). -/
def fp53mul (a b : ℕ × ℤ) : ℕ × ℤ :=
  let r := fp53ofRat (a.1 * b.1) 1
  (r.1, r.2 + a.2 + b.2)

/-- Correctly rounded binary64 quotient: the exact ratio, rounded once. -/
def fp53div (a b : ℕ × ℤ) : ℕ × ℤ :=
  let r := fp53ofRat a.1 b.1
  (r.1, r.2 + a.2 - b.2)

/-- The exact rational value of a modelled double. -/
def fpValue (d : ℕ × ℤ) : ℚ := (d.1 : ℚ) * (2 : ℚ) ^ d.2

/-- Binary64 evaluation of line 55 for an integral fetched micro value `p`:
the stored `ticketPrice` is the double quotient `p / 1_000_000`. -/
def jsStoredTicketPrice (p : ℕ) : ℕ × ℤ :=
  fp53div (fp53ofNat p) (fp53ofNat 1000000)

/-- Binary64 evaluation of line 95: the payment amount is the double product
`ticketPrice * 1_000_000` of the stored price. -/
def jsPaymentAmount (p : ℕ) : ℕ × ℤ :=
  fp53mul (jsStoredTicketPrice p) (fp53ofNat 1000000)

set_option maxRecDepth 20000 in
/-- Counterexample to C5 as stated: under the binary64 arithmetic the program
uses, for the fetched micro value `p = 123` — itself exactly representable —
the stored price `123 / 1_000_000` rounds to `4537899042132550 * 2 ^ (-65)`,
and the payment amount `ticketPrice * 1_000_000` evaluates to
`8655355533852673 * 2 ^ (-46)` = 123.00000000000001…, which is not `123`:
the roundtrip `(p / 1_000_000) * 1_000_000` does not return `p`. -/
theorem handleBuyTicket_payment_amount_not_roundtrip :
    fpValue (fp53ofNat 123) = 123 ∧
    jsStoredTicketPrice 123 = (4537899042132550, -65) ∧
    jsPaymentAmount 123 = (8655355533852673, -46) ∧
    fpValue (jsPaymentAmount 123) ≠ 123 := by
  have hamt : jsPaymentAmount 123 = (8655355533852673, -46) := by decide
  refine ⟨?_, by decide, hamt, ?_⟩
  · rw [show fp53ofNat 123 = (8655355533852672, -46) by decide]
    simp only [fpValue]
    rw [zpow_neg]
    field_simp
    norm_num
  · rw [hamt]
    intro hcontra
    simp only [fpValue] at hcontra
    rw [zpow_neg] at hcontra
    field_simp at hcontra
    norm_num at hcontra

/-- Amended C5: a submission that reaches the payment-construction step with
stored price `q` issues exactly one booking call whose payment amount is
`q * 1_000_000`, whose sender is the connected wallet address and whose
receiver is the entered receiver address, together with the numeric
conversion of the event identifier.  (Under binary64 arithmetic the stored
price for fetched micro value `p` is the rounded quotient `p / 1_000_000`,
and the roundtrip need not return `p` — see the counterexample at
`p = 123` — so no exact-`p` amount is guaranteed.) -/
theorem handleBuyTicket_payment_instruction
    (w : Wallet) (env : BuyEnv) (s : ModalState) (q : ℚ) (sp : Nat) (a : String)
    (hw : walletFalsy w = false) (ha : w.activeAddress = some a)
    (he : s.eventId ≠ "") (hr : s.receiverAddress ≠ "")
    (hprice : s.ticketPrice = some q) (hpos : 0 < q)
    (hparams : env.params = .ok sp) :
    (handleBuyTicket w env s).2.bookCalls =
      [(jsStrToNumber s.eventId, a, s.receiverAddress, q * 1000000)] := by
  have hp : ticketPriceGuardFails (some q) = false := by
    rw [ticketPriceGuardFails_some_eq_false_iff]
    exact hpos
  cases hb : env.bookResult with
  | ok r =>
      simp [handleBuyTicket, handleBuyTicketStart, handleBuyTicketAwait, getAppClient,
            appFactory, Effects.append, Effects.none, hw, he, hr, hp, hparams, hb,
            hprice, ha]
  | error e =>
      simp [handleBuyTicket, handleBuyTicketStart, handleBuyTicketAwait, getAppClient,
            appFactory, Effects.append, Effects.none, bookErrorEffects, Effects.snack,
            hw, he, hr, hp, hparams, hb, hprice, ha]

set_option maxRecDepth 20000 in
/-- Witness for the amended C5: the stored price is the actual double
`123 / 1_000_000` and the booking call's amount is that value times one
million. -/
theorem handleBuyTicket_payment_instruction_witness :
    (0 : ℚ) < fpValue (jsStoredTicketPrice 123) ∧
    (handleBuyTicket ⟨some "ADDR", true⟩ ⟨.ok 0, .ok "7"⟩
        ⟨"123", "RCV", false, some (fpValue (jsStoredTicketPrice 123))⟩).2.bookCalls =
      [(jsStrToNumber "123", "ADDR", "RCV",
        fpValue (jsStoredTicketPrice 123) * 1000000)] := by
  have hq : jsStoredTicketPrice 123 = (4537899042132550, -65) := by decide
  have hpos : (0 : ℚ) < fpValue (jsStoredTicketPrice 123) := by
    rw [hq]
    simp only [fpValue]
    positivity
  exact ⟨hpos,
    handleBuyTicket_payment_instruction ⟨some "ADDR", true⟩ ⟨.ok 0, .ok "7"⟩
      ⟨"123", "RCV", false, some (fpValue (jsStoredTicketPrice 123))⟩
      (fpValue (jsStoredTicketPrice 123)) 0 "ADDR" rfl rfl (by decide) (by decide)
      rfl hpos rfl⟩

/-- Claim C9: `appFactory` is `null` exactly when the wallet guard fails, so
once `handleBuyTicket`'s first precondition (`activeAddress` and
`transactionSigner` both present) has passed, `getAppClient`'s throwing branch
is unreachable and it returns the client built from the connected address. -/
theorem getAppClient_throw_unreachable (w : Wallet) :
    (appFactory w = none ↔ walletFalsy w = true) ∧
    (walletFalsy w = false →
      getAppClient w = .ok ⟨w.activeAddress.getD ""⟩) := by
  constructor
  · cases hwf : walletFalsy w <;> simp [appFactory, hwf]
  · intro hw
    simp [getAppClient, appFactory, hw]

/-- Witness for C9: with a connected wallet `getAppClient` returns the client
rather than throwing. -/
theorem getAppClient_throw_unreachable_witness :
    walletFalsy ⟨some "ADDR", true⟩ = false ∧
    getAppClient ⟨some "ADDR", true⟩ = .ok ⟨"ADDR"⟩ :=
  ⟨rfl, (getAppClient_throw_unreachable ⟨some "ADDR", true⟩).2 rfl⟩

/-- Claim C10: validation only checks that `eventId` is nonempty, and the
booking call receives `Number(eventId)`; hence a nonempty identifier whose
numeric conversion is NaN still proceeds past validation and the booking call
receives NaN. -/
theorem bookTicket_receives_nan_for_non_numeral
    (w : Wallet) (env : BuyEnv) (s : ModalState) (sp : Nat)
    (hw : walletFalsy w = false) (he : s.eventId ≠ "") (hr : s.receiverAddress ≠ "")
    (hp : ticketPriceGuardFails s.ticketPrice = false)
    (hparams : env.params = .ok sp)
    (hnan : jsStrToNumber s.eventId = .nan) :
    (handleBuyTicketStart w s).2.2 = true ∧
    (handleBuyTicket w env s).2.bookCalls =
      [(JSNum.nan, w.activeAddress.getD "", s.receiverAddress,
        (s.ticketPrice.getD 0) * 1000000)] := by
  constructor
  · simp [handleBuyTicketStart, hw, he, hr, hp]
  · cases hb : env.bookResult with
    | ok r =>
        simp [handleBuyTicket, handleBuyTicketStart, handleBuyTicketAwait, getAppClient,
              appFactory, Effects.append, Effects.none, hw, he, hr, hp, hparams, hb, hnan]
    | error e =>
        simp [handleBuyTicket, handleBuyTicketStart, handleBuyTicketAwait, getAppClient,
              appFactory, Effects.append, Effects.none, bookErrorEffects, Effects.snack,
              hw, he, hr, hp, hparams, hb, hnan]

/-- Witness for C10: the non-numeral identifier `"abc"` passes validation and
the booking call receives NaN. -/
theorem bookTicket_receives_nan_for_non_numeral_witness :
    jsStrToNumber "abc" = .nan ∧
    (handleBuyTicketStart ⟨some "ADDR", true⟩ ⟨"abc", "RCV", false, some 3⟩).2.2 = true ∧
    (handleBuyTicket ⟨some "ADDR", true⟩ ⟨.ok 0, .ok "7"⟩
        ⟨"abc", "RCV", false, some 3⟩).2.bookCalls =
      [(JSNum.nan, "ADDR", "RCV", (some (3 : ℚ)).getD 0 * 1000000)] :=
  ⟨by decide,
   bookTicket_receives_nan_for_non_numeral ⟨some "ADDR", true⟩ ⟨.ok 0, .ok "7"⟩
     ⟨"abc", "RCV", false, some 3⟩ 0 rfl (by decide) (by decide)
     (by rw [ticketPriceGuardFails_some_eq_false_iff]; norm_num) rfl (by decide)⟩

end BuyTicketModal

namespace BuyTicketModal

/-- The `finally` block (lines 112-114) resets `loading` on every path of the
awaited body, success and failure alike. -/
lemma handleBuyTicketAwait_loading_false (w : Wallet) (env : BuyEnv) (s : ModalState) :
    (handleBuyTicketAwait w env s).1.loading = false := by
  rcases hga : getAppClient w with e | f
  · simp [handleBuyTicketAwait, hga]
  · rcases hpa : env.params with e | sp
    · simp [handleBuyTicketAwait, hga, hpa]
    · rcases hb : env.bookResult with e | r <;>
        simp [handleBuyTicketAwait, hga, hpa, hb]

/-- Claim C8: `loading` becomes `true` exactly when a submission passes all
four preconditions, every other path leaves the state untouched, the awaited
body ends with `loading = false` on success and failure alike (so a full run
that entered the body ends with `loading = false`), and the submit button is
disabled exactly when `loading` is `true` or `ticketPrice` is unset
(`null` or zero). -/
theorem loading_flag_lifecycle (w : Wallet) (env : BuyEnv) (s : ModalState) :
    ((handleBuyTicketStart w s).2.2 = true ↔
      walletFalsy w = false ∧ s.eventId ≠ "" ∧ s.receiverAddress ≠ "" ∧
      ticketPriceGuardFails s.ticketPrice = false) ∧
    ((handleBuyTicketStart w s).2.2 = true →
      (handleBuyTicketStart w s).1 = { s with loading := true }) ∧
    ((handleBuyTicketStart w s).2.2 = false → (handleBuyTicketStart w s).1 = s) ∧
    ((handleBuyTicketAwait w env s).1.loading = false) ∧
    ((handleBuyTicketStart w s).2.2 = true →
      (handleBuyTicket w env s).1.loading = false) ∧
    (submitDisabled s = true ↔
      s.loading = true ∨ s.ticketPrice = none ∨ s.ticketPrice = some 0) := by
  have hcases :
      (walletFalsy w = true ∧
        handleBuyTicketStart w s =
          (s, Effects.snack "Please connect your wallet first" .warning, false)) ∨
      (walletFalsy w = false ∧ s.eventId = "" ∧
        handleBuyTicketStart w s =
          (s, Effects.snack "Please enter an Event ID" .error, false)) ∨
      (walletFalsy w = false ∧ s.eventId ≠ "" ∧ s.receiverAddress = "" ∧
        handleBuyTicketStart w s =
          (s, Effects.snack "Please enter a receiver address" .error, false)) ∨
      (walletFalsy w = false ∧ s.eventId ≠ "" ∧ s.receiverAddress ≠ "" ∧
        ticketPriceGuardFails s.ticketPrice = true ∧
        handleBuyTicketStart w s =
          (s, Effects.snack "Ticket price not available" .error, false)) ∨
      (walletFalsy w = false ∧ s.eventId ≠ "" ∧ s.receiverAddress ≠ "" ∧
        ticketPriceGuardFails s.ticketPrice = false ∧
        handleBuyTicketStart w s = ({ s with loading := true }, Effects.none, true)) := by
    by_cases hw : walletFalsy w = true
    · exact Or.inl ⟨hw, by simp [handleBuyTicketStart, hw]⟩
    · have hw' : walletFalsy w = false := by simpa using hw
      by_cases he : s.eventId = ""
      · exact Or.inr (Or.inl ⟨hw', he, by simp [handleBuyTicketStart, hw', he]⟩)
      · by_cases hr : s.receiverAddress = ""
        · exact Or.inr (Or.inr (Or.inl
            ⟨hw', he, hr, by simp [handleBuyTicketStart, hw', he, hr]⟩))
        · by_cases hp : ticketPriceGuardFails s.ticketPrice = true
          · exact Or.inr (Or.inr (Or.inr (Or.inl
              ⟨hw', he, hr, hp, by simp [handleBuyTicketStart, hw', he, hr, hp]⟩)))
          · have hp' : ticketPriceGuardFails s.ticketPrice = false := by simpa using hp
            exact Or.inr (Or.inr (Or.inr (Or.inr
              ⟨hw', he, hr, hp', by simp [handleBuyTicketStart, hw', he, hr, hp']⟩)))
  refine ⟨?_, ?_, ?_, handleBuyTicketAwait_loading_false w env s, ?_, ?_⟩
  · rcases hcases with ⟨hw, heq⟩ | ⟨hw, he, heq⟩ | ⟨hw, he, hr, heq⟩ |
      ⟨hw, he, hr, hp, heq⟩ | ⟨hw, he, hr, hp, heq⟩ <;> rw [heq] <;> simp_all
  · rcases hcases with ⟨hw, heq⟩ | ⟨hw, he, heq⟩ | ⟨hw, he, hr, heq⟩ |
      ⟨hw, he, hr, hp, heq⟩ | ⟨hw, he, hr, hp, heq⟩ <;> rw [heq] <;> simp_all
  · rcases hcases with ⟨hw, heq⟩ | ⟨hw, he, heq⟩ | ⟨hw, he, hr, heq⟩ |
      ⟨hw, he, hr, hp, heq⟩ | ⟨hw, he, hr, hp, heq⟩ <;> rw [heq] <;> simp_all
  · intro hgo
    have h1 : (handleBuyTicket w env s).1 =
        (handleBuyTicketAwait w env (handleBuyTicketStart w s).1).1 := by
      simp [handleBuyTicket, hgo]
    rw [h1]
    exact handleBuyTicketAwait_loading_false w env _
  · rcases ht : s.ticketPrice with _ | p
    · simp [submitDisabled, ht]
    · simp [submitDisabled, ht]

/-- Witness for C8: a concrete valid submission enters the loading phase and
ends with `loading = false`; a state with `loading = true` has the submit
button disabled. -/
theorem loading_flag_lifecycle_witness :
    (handleBuyTicketStart ⟨some "ADDR", true⟩ ⟨"42", "RCV", false, some 3⟩).2.2 = true ∧
    (handleBuyTicket ⟨some "ADDR", true⟩ ⟨.ok 0, .ok "7"⟩
        ⟨"42", "RCV", false, some 3⟩).1.loading = false ∧
    submitDisabled ⟨"42", "RCV", true, some 3⟩ = true := by
  have T := loading_flag_lifecycle ⟨some "ADDR", true⟩ ⟨.ok 0, .ok "7"⟩
    ⟨"42", "RCV", false, some 3⟩
  have hgo := T.1.mpr ⟨rfl, by decide, by decide,
    by rw [ticketPriceGuardFails_some_eq_false_iff]; norm_num⟩
  refine ⟨hgo, T.2.2.2.2.1 hgo, ?_⟩
  exact (loading_flag_lifecycle ⟨some "ADDR", true⟩ ⟨.ok 0, .ok "7"⟩
    ⟨"42", "RCV", true, some 3⟩).2.2.2.2.2.mpr (Or.inl rfl)

end BuyTicketModal

namespace BuyTicketModal

/-- Counterexample to C6 as stated: with a connected wallet but an empty
event identifier — a precondition failure of the price-fetch effect — the
effect shows no notification at all (it silently resets the price), unlike
remote failures, which enqueue an error snackbar. -/
theorem fetch_precondition_silent_counterexample :
    (fetchTicketPrice ⟨some "ADDR", true⟩ (.ok 5)
        ⟨"", "RCV", false, some 1⟩).2.snackbars = [] ∧
    (fetchTicketPrice ⟨some "ADDR", true⟩ (.ok 5)
        ⟨"", "RCV", false, some 1⟩).1.ticketPrice = none ∧
    (fetchTicketPrice ⟨some "ADDR", true⟩
        (.error (.error "net")) ⟨"42", "RCV", false, some 1⟩).2.snackbars =
      [("net", .error)] :=
  ⟨rfl, rfl, rfl⟩

/-- Amended C6: in `handleBuyTicket` every precondition failure shows exactly
one warning/error notification and returns with the state unchanged, while in
the price-fetch effect a precondition failure (empty identifier or missing
wallet) silently resets `ticketPrice` to `null` with no notification; both
operations return normally on every path, so no exception propagates out of
the component. -/
theorem precondition_failure_notifications
    (w : Wallet) (env : BuyEnv) (fr : Except Thrown ℚ) (s : ModalState) :
    ((handleBuyTicketStart w s).2.2 = false →
      ∃ m v, handleBuyTicket w env s = (s, Effects.snack m v) ∧
        (v = Variant.warning ∨ v = Variant.error)) ∧
    ((s.eventId == "" || !jsTruthyStr w.activeAddress || !w.signerPresent) = true →
      fetchTicketPrice w fr s = ({ s with ticketPrice := none }, Effects.none)) := by
  constructor
  · intro hstop
    by_cases hw : walletFalsy w = true
    · exact ⟨"Please connect your wallet first", .warning,
        by simp [handleBuyTicket, handleBuyTicketStart, hw], Or.inl rfl⟩
    · have hw' : walletFalsy w = false := by simpa using hw
      by_cases he : s.eventId = ""
      · exact ⟨"Please enter an Event ID", .error,
          by simp [handleBuyTicket, handleBuyTicketStart, hw', he], Or.inr rfl⟩
      · by_cases hr : s.receiverAddress = ""
        · exact ⟨"Please enter a receiver address", .error,
            by simp [handleBuyTicket, handleBuyTicketStart, hw', he, hr], Or.inr rfl⟩
        · by_cases hp : ticketPriceGuardFails s.ticketPrice = true
          · exact ⟨"Ticket price not available", .error,
              by simp [handleBuyTicket, handleBuyTicketStart, hw', he, hr, hp], Or.inr rfl⟩
          · have hp' : ticketPriceGuardFails s.ticketPrice = false := by simpa using hp
            rw [show (handleBuyTicketStart w s).2.2 = true by
              simp [handleBuyTicketStart, hw', he, hr, hp']] at hstop
            exact absurd hstop (by simp)
  · intro hguard
    simp only [fetchTicketPrice]
    rw [if_pos hguard]

/-- Witness for the amended C6: a missing wallet at submission yields the
connect-wallet warning; an empty identifier in the fetch effect yields no
notification. -/
theorem precondition_failure_notifications_witness :
    ((handleBuyTicketStart ⟨none, true⟩ ⟨"42", "RCV", false, some 3⟩).2.2 = false ∧
     ∃ m v, handleBuyTicket ⟨none, true⟩ ⟨.ok 0, .ok "7"⟩ ⟨"42", "RCV", false, some 3⟩ =
         (⟨"42", "RCV", false, some 3⟩, Effects.snack m v) ∧
       (v = Variant.warning ∨ v = Variant.error)) ∧
    ((("" : String) == "" || !jsTruthyStr (some "ADDR") || !true) = true ∧
     fetchTicketPrice ⟨some "ADDR", true⟩ (.ok 5) ⟨"", "RCV", false, some 1⟩ =
       ({ eventId := "", receiverAddress := "RCV", loading := false,
          ticketPrice := none }, Effects.none)) :=
  ⟨⟨rfl, (precondition_failure_notifications ⟨none, true⟩ ⟨.ok 0, .ok "7"⟩ (.ok 5)
      ⟨"42", "RCV", false, some 3⟩).1 rfl⟩,
   ⟨rfl, (precondition_failure_notifications ⟨some "ADDR", true⟩ ⟨.ok 0, .ok "7"⟩
      (.ok 5) ⟨"", "RCV", false, some 1⟩).2 rfl⟩⟩

/-- Modelled from the spec: the price-fetch effect's dependency list (line 64)
also contains `getAppClient` and `enqueueSnackbar`, whose render-to-render
identity is produced by configuration helpers (`getAlgoClientConfigs`,
notistack) whose sources are not part of this repository's `src`; the spec
states the fetch is "recomputed whenever eventId or wallet connection
changes" and that "the next state change re-triggers the effect", so those
callbacks are taken as stable and the dependency snapshot reduces to the
event identifier and the wallet connection. -/
def effectDeps (w : Wallet) (eventId : String) : String × Option String × Bool :=
  (eventId, w.activeAddress, w.signerPresent)

/-- A `useEffect` re-runs exactly when its dependency snapshot differs from
the previous render's. -/
def effectRetriggers (w w' : Wallet) (e e' : String) : Bool :=
  decide (effectDeps w e ≠ effectDeps w' e')

/-- Claim C7: a price-fetch run whose preconditions hold but whose awaited
read throws sets `ticketPrice` to `null` and enqueues exactly one error
snackbar; the run performs exactly one read attempt (no retry), and the
effect re-triggers exactly when the event identifier or the wallet connection
changed. -/
theorem fetchTicketPrice_failure_resets_no_retry
    (w w' : Wallet) (s : ModalState) (t : Thrown) (e' : String)
    (he : s.eventId ≠ "") (ha : jsTruthyStr w.activeAddress = true)
    (hs : w.signerPresent = true) :
    fetchTicketPrice w (.error t) s =
      ({ s with ticketPrice := none },
       { Effects.snack (t.messageOr "Unable to fetch ticket price") .error with
          priceFetches := 1 }) ∧
    (effectRetriggers w w' s.eventId e' = true ↔
      ¬(s.eventId = e' ∧ w.activeAddress = w'.activeAddress ∧
        w.signerPresent = w'.signerPresent)) := by
  constructor
  · have hw : walletFalsy w = false := (walletFalsy_eq_false_iff w).mpr ⟨ha, hs⟩
    simp [fetchTicketPrice, getAppClient, appFactory, hw, he, ha, hs]
  · simp only [effectRetriggers, effectDeps, ne_eq, decide_eq_true_eq, Prod.mk.injEq,
      not_and]

/-- Witness for C7: a fetch for `"42"` whose read throws `Error("net")`, and
a wallet change that re-triggers the effect. -/
theorem fetchTicketPrice_failure_resets_no_retry_witness :
    (fetchTicketPrice ⟨some "ADDR", true⟩ (.error (.error "net"))
        ⟨"42", "RCV", false, some 1⟩ =
      ({ eventId := "42", receiverAddress := "RCV", loading := false,
         ticketPrice := none },
       { Effects.snack "net" .error with priceFetches := 1 })) ∧
    (effectRetriggers ⟨some "ADDR", true⟩ ⟨none, true⟩ "42" "42" = true ↔
      ¬(("42" : String) = "42" ∧ (some "ADDR" : Option String) = none ∧
        (true : Bool) = true)) :=
  (fetchTicketPrice_failure_resets_no_retry ⟨some "ADDR", true⟩ ⟨none, true⟩
    ⟨"42", "RCV", false, some 1⟩ (.error "net") "42" (by decide) rfl rfl)

end BuyTicketModal
